import Mathlib

/-!
Verification development for the BrowserAgent control loop (`agent.py`).

The embedding models the agent loop, its response validator, the coordinate
denormalizers and the sliding-window history.  Machine integers are modelled
as `Nat`/`Int`.  The denormalizers evaluate `(x / 1000) * dim` in Python
floats, i.e. IEEE-754 binary64 arithmetic; this is modelled exactly: each of
the two operations is rounded to the nearest binary64 value (ties to even)
by `rnd64Pos`, working on the exact rational operands represented as natural
numerator/denominator pairs, and `int()` then truncates the resulting dyadic
rational toward zero.  `json.loads` is modelled by presenting the response as an
`Option Json`: `none` stands for text that is empty or not valid JSON,
`some j` for text that parses to the JSON value `j`.  The external
collaborators (the `Computer` environment and the Ollama inference client)
are modelled as oracles inside `Config`, and every call the loop makes to
them is recorded in an `ExtCall` trace.
-/

namespace Qwen3CU

/-- JSON values as produced by `json.loads` (numbers restricted to integers,
which is all the action schema uses). Objects are ordered key/value lists
with distinct keys. -/
inductive Json where
  | null
  | bool (b : Bool)
  | num (n : Int)
  | str (s : String)
  | arr (elems : List Json)
  | obj (fields : List (String × Json))

/-- `NORMALIZED_SIZE = 1000`, the fixed logical grid used by the model. -/
def NORMALIZED_SIZE : Nat := 1000

/-- Python exceptions that the loop's turn code can raise; `msg` is `str(e)`. -/
inductive PyErr where
  | typeError (msg : String)
  | valueError (msg : String)
  | attributeError (msg : String)
  | keyError (msg : String)
  | indexError (msg : String)

/-- `str(e)` of a raised Python exception. -/
def PyErr.msg : PyErr → String
  | .typeError m => m
  | .valueError m => m
  | .attributeError m => m
  | .keyError m => m
  | .indexError m => m

/-- Does the (char-list) haystack start with the needle?  Helper for
Python's `needle in hay` on strings. -/
def charsStartWith : List Char → List Char → Bool
  | [], _ => true
  | _ :: _, [] => false
  | a :: as, b :: bs => a == b && charsStartWith as bs

/-- Python's substring containment `needle in hay` on strings. -/
def charsContain (needle : List Char) : List Char → Bool
  | [] => charsStartWith needle []
  | c :: rest => charsStartWith needle (c :: rest) || charsContain needle rest

/-- Models `BrowserAgent._parse_response`.  The input is the raw response
text after `json.loads`: `none` when the text is empty or unparseable,
`some j` when it parses to `j`.  The source checks `"action" in action`,
whose Python semantics depend on the type of `action`: key membership for
dicts, element membership for lists, substring test for strings, and a
`TypeError` otherwise. -/
def parseResponse : Option Json → Except PyErr (Option Json)
  | none => .ok none
  | some (.obj fields) =>
      if fields.any (fun kv => kv.1 == "action") then .ok (some (.obj fields))
      else .ok none
  | some (.arr elems) =>
      if elems.any (fun e => match e with | .str s => s == "action" | _ => false) then
        .ok (some (.arr elems))
      else .ok none
  | some (.str s) =>
      if charsContain "action".toList s.toList then .ok (some (.str s))
      else .ok none
  | some _ => .error (.typeError "argument of type is not iterable")

/-- Fuel-bounded loop computing `⌊log2 n⌋` (and `0` for `n ≤ 1`): divide by
`2 ^ 32` while the argument is at least `2 ^ 32`, then by `2`.  64 fuel steps
cover every `n < 2 ^ 1024`, far beyond any number this development produces
(all are below `2 ^ 128`).  Written with a bare `Nat.rec` so that evaluation
is a plain linear loop. -/
def floorLog2N (n : Nat) : Nat :=
  Nat.rec (motive := fun _ => Nat → Nat → Nat)
    (fun _ acc => acc)
    (fun _ ih m acc =>
      if 2 ^ 32 ≤ m then ih (m / 2 ^ 32) (acc + 32)
      else if 2 ≤ m then ih (m / 2) (acc + 1) else acc)
    64 n 0

/-- `⌊log2 (num / den)⌋` for positive naturals: the bit lengths bound the
quotient within a factor-two window, and one comparison settles which side
of the power of two it lies on. -/
def ratFloorLog2 (num den : Nat) : Int :=
  match floorLog2N num, floorLog2N den with
  | ln, ld =>
    if ld ≤ ln then
      (if den * 2 ^ (ln - ld) ≤ num then ((ln - ld : Nat) : Int)
       else ((ln - ld : Nat) : Int) - 1)
    else
      (if den ≤ num * 2 ^ (ld - ln) then -((ld - ln : Nat) : Int)
       else -((ld - ln : Nat) : Int) - 1)

/-- Round `(num * 2 ^ shiftUp) / (den * 2 ^ shiftDown)` to the nearest
integer, ties to even — the mantissa-rounding kernel of binary64 rounding. -/
def rnd64PosCore (num den : Nat) (shiftUp shiftDown : Nat) : Nat :=
  match num * 2 ^ shiftUp, den * 2 ^ shiftDown with
  | n2, d2 =>
    match n2 / d2, n2 % d2 with
    | q, r =>
      if 2 * r < d2 then q
      else if d2 < 2 * r then q + 1
      else if q % 2 = 0 then q else q + 1

/-- Round the positive rational `num / den` to the IEEE-754 binary64 value
nearest to it (round to nearest, ties to even), returned as a mantissa and
binary exponent `(m, e)` with value `m * 2 ^ e` and `m` of 53 bits: the
value is scaled into `[2 ^ 52, 2 ^ 53)` and the scaled mantissa rounded to
an integer.  Exact for every value in the binary64 normal range, which
covers everything this development evaluates (no overflow or subnormals). -/
def rnd64Pos (num den : Nat) : Nat × Int :=
  match ratFloorLog2 num den with
  | k =>
    match k - 52 with
    | .ofNat e => (rnd64PosCore num den 0 e, .ofNat e)
    | .negSucc e => (rnd64PosCore num den (e + 1) 0, .negSucc e)

/-- Python's `int((x / NORMALIZED_SIZE) * dim)` for naturals `x`, `dim`,
computed in binary64 arithmetic exactly as the interpreter does: `x / 1000`
is the division's correctly rounded binary64 result, the product with `dim`
(exact as an integer below `2 ^ 53`) is rounded again, and `int()` truncates
the resulting dyadic rational.  When `x = 0` or `dim = 0` every intermediate
is exactly `0.0`. -/
def pyDenormNat (x dim : Nat) : Nat :=
  if x = 0 ∨ dim = 0 then 0
  else
    match rnd64Pos x NORMALIZED_SIZE with
    | (m1, e1) =>
      match e1 with
      | .ofNat e =>
        match rnd64Pos (m1 * dim * 2 ^ e) 1 with
        | (m2, e2) =>
          match e2 with
          | .ofNat f => m2 * 2 ^ f
          | .negSucc f => m2 / 2 ^ (f + 1)
      | .negSucc e =>
        match rnd64Pos (m1 * dim) (2 ^ (e + 1)) with
        | (m2, e2) =>
          match e2 with
          | .ofNat f => m2 * 2 ^ f
          | .negSucc f => m2 / 2 ^ (f + 1)

/-- Models `_denormalize_x` / `_denormalize_y`:
`int((v / NORMALIZED_SIZE) * dim)` evaluated in binary64 floats.  Both float
operations are sign-symmetric and `int()` truncates toward zero, so negative
inputs reduce to the positive computation negated. -/
def denormalize (v : Int) (dim : Nat) : Int :=
  if 0 ≤ v then (pyDenormNat v.toNat dim : Nat)
  else -(pyDenormNat (-v).toNat dim : Nat)

/-- Models the scroll branch of `_execute_action`:
`actual = int((abs(pixels) / NORMALIZED_SIZE) * screen_h)` in binary64
floats, negated when `pixels < 0`. -/
def denormScroll (pixels : Int) (screen_h : Nat) : Int :=
  let a : Int := (pyDenormNat pixels.natAbs screen_h : Nat)
  if pixels < 0 then -a else a

/-- Bounded check `p 0 && p 1 && ... && p (n - 1)`, written with a bare
`Nat.rec` for linear evaluation. -/
def allBelow (p : Nat → Bool) (n : Nat) : Bool :=
  Nat.rec true (fun k acc => acc && p k) n

/-- One retained conversation turn: the (resized) screenshot that was sent
to the model, the action taken and the model's reasoning text.  Screenshot
bytes are abstracted to a `Nat` identifier. -/
structure HistoryEntry where
  screenshot_b64 : Nat
  action : Json
  reasoning : String

/-- Models the history update in `_run_one_step`: append the new entry, then
`if len(history) > context_window: history.pop(0)`. -/
def pushHistory (window : Nat) (history : List HistoryEntry) (entry : HistoryEntry) :
    List HistoryEntry :=
  let h := history ++ [entry]
  if window < h.length then h.tail else h

/-- `EnvState` as returned by the `Computer` environment: screenshot bytes
(abstracted to a `Nat` identifier) and the current URL. -/
structure EnvState where
  screenshot : Nat
  url : String

/-- One call the loop makes to an external collaborator: the Ollama chat
endpoint or an operation of the `Computer` interface. -/
inductive ExtCall where
  | ollamaChat
  | screenSize
  | currentState
  | clickAt (x y : Int)
  | doubleClickAt (x y : Int)
  | tripleClickAt (x y : Int)
  | rightClickAt (x y : Int)
  | middleClickAt (x y : Int)
  | hoverAt (x y : Int)
  | dragTo (x y : Int)
  | typeText (t : Json)
  | keyCombination (ks : Json)
  | scroll (pixels : Int)

/-- Calls that dispatch an action to the environment (as opposed to pure
queries and the inference call). -/
def ExtCall.isDispatch : ExtCall → Bool
  | .ollamaChat => false
  | .screenSize => false
  | .currentState => false
  | _ => true

/-- The loop's collaborators and parameters.  `responses k` is the content
of the `k`-th Ollama reply after `json.loads` (`none` = empty/unparseable
text); `thinking k` is its reasoning trace.  `envStates n` is the `EnvState`
returned by the `n`-th state-returning environment call; `screen_w × screen_h`
is the fixed viewport reported by `screen_size()`. -/
structure Config where
  max_steps : Nat
  context_window : Nat
  screen_w : Nat
  screen_h : Nat
  responses : Nat → Option Json
  thinking : Nat → String
  envStates : Nat → EnvState

/-- Mutable fields of `BrowserAgent` relevant to the loop, plus the counters
that index the collaborator oracles. -/
structure LoopState where
  history : List HistoryEntry
  action_count : Nat
  consecutive_failures : Nat
  ollama_calls : Nat
  env_calls : Nat

/-- Models `_make_result` (with `self._action_count` passed explicitly). -/
structure AgentResult where
  status : Json
  action_count : Nat
  final_url : String
  reasoning : Json

/-- Models `_make_result`. -/
def makeResult (actionCount : Nat) (status : Json) (finalUrl : String)
    (reasoning : Json) : AgentResult :=
  ⟨status, actionCount, finalUrl, reasoning⟩

/-- Python truthiness of a JSON value (`if coordinate:`). -/
def jsonTruthy : Json → Bool
  | .null => false
  | .bool b => b
  | .num n => n != 0
  | .str s => !s.isEmpty
  | .arr l => !l.isEmpty
  | .obj f => !f.isEmpty

/-- Python `len(j)`: defined for strings, lists and dicts. -/
def jsonLen : Json → Except PyErr Nat
  | .arr l => .ok l.length
  | .str s => .ok s.length
  | .obj f => .ok f.length
  | _ => .error (.typeError "object has no len")

/-- Python `j[i]` for a natural index `i`. -/
def jsonIndex : Json → Nat → Except PyErr Json
  | .arr l, i =>
      match l.get? i with
      | some v => .ok v
      | none => .error (.indexError "list index out of range")
  | .str s, i =>
      match s.toList.get? i with
      | some c => .ok (.str (String.mk [c]))
      | none => .error (.indexError "string index out of range")
  | .obj _, _ => .error (.keyError "0")
  | _, _ => .error (.typeError "object is not subscriptable")

/-- A JSON value used as a Python number (`bool` is an `int` subclass). -/
def asNumber : Json → Except PyErr Int
  | .num n => .ok n
  | .bool b => .ok (if b then 1 else 0)
  | _ => .error (.typeError "unsupported operand type")

/-- Models `_execute_action` on a parsed action object.  Returns the
environment's answer (or the raised exception), the list of external calls
made, and the next index into `Config.envStates`.  Coordinates are
denormalized before the dispatch switch, exactly as in the source:
`x = denormalize(coordinate[0]) if coordinate else 0` and
`y = denormalize(coordinate[1]) if len(coordinate) > 1 else 0`, each
consulting `screen_size()`. -/
def executeAction (cfg : Config) (fields : List (String × Json)) (envIdx : Nat) :
    Except PyErr EnvState × List ExtCall × Nat :=
  let coordinate := (List.lookup "coordinate" fields).getD (.arr [.num 0, .num 0])
  let xr : Except PyErr (Int × List ExtCall) :=
    if jsonTruthy coordinate then
      match jsonIndex coordinate 0 with
      | .error e => .error e
      | .ok c0 =>
        match asNumber c0 with
        | .error e => .error e
        | .ok v => .ok (denormalize v cfg.screen_w, [.screenSize])
    else .ok (0, [])
  match xr with
  | .error e => (.error e, [], envIdx)
  | .ok (x, tx) =>
    let yr : Except PyErr (Int × List ExtCall) :=
      match jsonLen coordinate with
      | .error e => .error e
      | .ok n =>
        if 1 < n then
          match jsonIndex coordinate 1 with
          | .error e => .error e
          | .ok c1 =>
            match asNumber c1 with
            | .error e => .error e
            | .ok v => .ok (denormalize v cfg.screen_h, [.screenSize])
        else .ok (0, [])
    match yr with
    | .error e => (.error e, tx, envIdx)
    | .ok (y, ty) =>
      let pre := tx ++ ty
      let dispatch1 : ExtCall → Except PyErr EnvState × List ExtCall × Nat :=
        fun c => (.ok (cfg.envStates envIdx), pre ++ [c], envIdx + 1)
      match List.lookup "action" fields with
      | some (.str s) =>
        if s = "left_click" then dispatch1 (.clickAt x y)
        else if s = "double_click" then dispatch1 (.doubleClickAt x y)
        else if s = "triple_click" then dispatch1 (.tripleClickAt x y)
        else if s = "right_click" then dispatch1 (.rightClickAt x y)
        else if s = "middle_click" then dispatch1 (.middleClickAt x y)
        else if s = "mouse_move" then dispatch1 (.hoverAt x y)
        else if s = "left_click_drag" then dispatch1 (.dragTo x y)
        else if s = "type" then
          dispatch1 (.typeText ((List.lookup "text" fields).getD (.str "")))
        else if s = "key" then
          dispatch1 (.keyCombination ((List.lookup "keys" fields).getD (.arr [])))
        else if s = "scroll" then
          match asNumber ((List.lookup "pixels" fields).getD (.num 0)) with
          | .error e => (.error e, pre, envIdx)
          | .ok p =>
            (.ok (cfg.envStates envIdx),
             pre ++ [.screenSize, .scroll (denormScroll p cfg.screen_h)], envIdx + 1)
        else if s = "wait" then
          match asNumber ((List.lookup "time" fields).getD (.num 1)) with
          | .error e => (.error e, pre, envIdx)
          | .ok t =>
            if t < 0 then (.error (.valueError "sleep length must be non-negative"), pre, envIdx)
            else dispatch1 .currentState
        else dispatch1 .currentState
      | _ => dispatch1 .currentState

/-- Outcome of `_run_one_step`: a normal turn with the post-action state, a
terminal turn (`terminate` / `answer`), or a raised exception (carrying
`str(e)`). -/
inductive StepOutcome where
  | next (newState : EnvState)
  | done (status : Json) (reasoning : Json)
  | raised (msg : String)

/-- Models `_run_one_step`: call Ollama, parse the response, short-circuit on
`terminate` and `answer`, otherwise execute the action, bump the action
counter and push the history entry.  Returns the outcome, the updated agent
state and the external calls made. -/
def runOneStep (cfg : Config) (ls : LoopState) (state : EnvState) :
    StepOutcome × LoopState × List ExtCall :=
  let screenshot_b64 := state.screenshot
  let response := cfg.responses ls.ollama_calls
  let thinking := cfg.thinking ls.ollama_calls
  let ls1 : LoopState := { ls with ollama_calls := ls.ollama_calls + 1 }
  match parseResponse response with
  | .error e => (.raised e.msg, ls1, [.ollamaChat])
  | .ok none => (.raised "Failed to parse action", ls1, [.ollamaChat])
  | .ok (some (.obj fields)) =>
    let exec : StepOutcome × LoopState × List ExtCall :=
      match executeAction cfg fields ls1.env_calls with
      | (.error e, calls, envIdx) =>
        (.raised e.msg, { ls1 with env_calls := envIdx }, .ollamaChat :: calls)
      | (.ok newState, calls, envIdx) =>
        let entry : HistoryEntry := ⟨screenshot_b64, .obj fields, thinking⟩
        (.next newState,
         { ls1 with
            env_calls := envIdx,
            action_count := ls1.action_count + 1,
            history := pushHistory cfg.context_window ls1.history entry },
         .ollamaChat :: calls)
    match List.lookup "action" fields with
    | some (.str s) =>
      if s = "terminate" then
        (.done ((List.lookup "status" fields).getD (.str "success")) (.str thinking),
         ls1, [.ollamaChat])
      else if s = "answer" then
        (.done (.str "success") ((List.lookup "text" fields).getD (.str "")),
         ls1, [.ollamaChat])
      else exec
    | _ => exec
  | .ok (some _) =>
    -- `action.get(...)` on a non-dict value raises AttributeError
    (.raised "object has no attribute get", ls1, [.ollamaChat])

/-- Models the `while` loop of `BrowserAgent.run`, with an explicit fuel
bounding the number of iterations (`run` supplies more fuel than any
execution can consume: each iteration either increments `action_count`,
bounded by `max_steps`, or increments `consecutive_failures`, which forces a
return at 3). -/
def runWithFuel (cfg : Config) : Nat → EnvState → LoopState → AgentResult × List ExtCall
  | 0, state, ls =>
      (makeResult ls.action_count (.str "failure") state.url (.str "Max steps reached"), [])
  | fuel + 1, state, ls =>
    if ls.action_count < cfg.max_steps then
      match runOneStep cfg ls state with
      | (.raised msg, ls', calls) =>
        if ls'.consecutive_failures + 1 ≥ 3 then
          (makeResult ls'.action_count (.str "failure") state.url (.str msg), calls)
        else
          let state' := cfg.envStates ls'.env_calls
          let ls'' := { ls' with
                          consecutive_failures := ls'.consecutive_failures + 1,
                          env_calls := ls'.env_calls + 1 }
          let r := runWithFuel cfg fuel state' ls''
          (r.1, calls ++ .currentState :: r.2)
      | (.done status reasoning, ls', calls) =>
        (makeResult ls'.action_count status state.url reasoning, calls)
      | (.next newState, ls', calls) =>
        let ls'' := { ls' with consecutive_failures := 0 }
        let r := runWithFuel cfg fuel newState ls''
        (r.1, calls ++ r.2)
    else
      (makeResult ls.action_count (.str "failure") state.url (.str "Max steps reached"), [])

/-- The agent's state at the top of `run`, after the constructor: empty
history, zero counters; `env_calls = 1` because the initial
`current_state()` snapshot consumes the first environment answer. -/
def initialLoopState : LoopState := ⟨[], 0, 0, 0, 1⟩

/-- Models `BrowserAgent.run`: take the initial snapshot, then iterate the
loop.  Returns the final `Result` dict and the trace of external calls. -/
def run (cfg : Config) : AgentResult × List ExtCall :=
  let state := cfg.envStates 0
  let r := runWithFuel cfg (4 * cfg.max_steps + 4) state initialLoopState
  (r.1, .currentState :: r.2)

/-- The action kinds the loop gives a meaning to: the 12 kinds of the schema
plus the extra `answer` short-circuit in `_run_one_step`. -/
def knownActionKinds : List String :=
  ["left_click", "double_click", "triple_click", "right_click", "middle_click",
   "mouse_move", "left_click_drag", "type", "key", "scroll", "wait",
   "terminate", "answer"]

/-- Environment oracle whose `n`-th answer is screenshot `n` at URL `"u"`. -/
def stdEnv : Nat → EnvState := fun n => ⟨n, "u"⟩

/-- A stubbed inference client that always returns unparseable text. -/
def allUnparseableCfg : Config :=
  { max_steps := 3, context_window := 5, screen_w := 1440, screen_h := 900,
    responses := fun _ => none, thinking := fun _ => "", envStates := stdEnv }

/-- A stub model whose first reply is a valid `terminate` with status
`success`. -/
def terminateSuccessCfg : Config :=
  { max_steps := 5, context_window := 5, screen_w := 1440, screen_h := 900,
    responses := fun k =>
      match k with
      | 0 => some (.obj [("action", .str "terminate"), ("status", .str "success")])
      | _ => none,
    thinking := fun _ => "", envStates := stdEnv }

/-- A stub model whose first reply is an action of the unknown kind `foo`,
with a budget of one step. -/
def unknownActionCfg : Config :=
  { max_steps := 1, context_window := 5, screen_w := 1440, screen_h := 900,
    responses := fun k =>
      match k with
      | 0 => some (.obj [("action", .str "foo")])
      | _ => none,
    thinking := fun _ => "", envStates := stdEnv }

/-- A configuration with a zero step budget. -/
def zeroStepsCfg : Config :=
  { max_steps := 0, context_window := 5, screen_w := 1440, screen_h := 900,
    responses := fun _ => none, thinking := fun _ => "", envStates := stdEnv }

/-- The spec's example scenario: click at normalized (500,500), type
`hello`, then terminate successfully, on a 1440×900 viewport. -/
def scenarioCfg : Config :=
  { max_steps := 50, context_window := 5, screen_w := 1440, screen_h := 900,
    responses := fun k =>
      match k with
      | 0 => some (.obj [("action", .str "left_click"),
                         ("coordinate", .arr [.num 500, .num 500])])
      | 1 => some (.obj [("action", .str "type"), ("text", .str "hello")])
      | 2 => some (.obj [("action", .str "terminate"), ("status", .str "success")])
      | _ => none,
    thinking := fun _ => "", envStates := stdEnv }

/-- A stub model whose first reply is an `answer` action carrying text. -/
def answerCfg : Config :=
  { max_steps := 5, context_window := 5, screen_w := 1440, screen_h := 900,
    responses := fun k =>
      match k with
      | 0 => some (.obj [("action", .str "answer"), ("text", .str "42")])
      | _ => none,
    thinking := fun _ => "", envStates := stdEnv }

set_option maxRecDepth 8000

set_option maxHeartbeats 1600000

lemma denormalize_natCast (a dim : ℕ) : denormalize (a : ℤ) dim = (pyDenormNat a dim : ℕ) := by
  simp [denormalize]

lemma allBelow_spec (p : Nat → Bool) :
    ∀ n : Nat, allBelow p n = true → ∀ x : Nat, x < n → p x = true := by
  intro n
  induction n with
  | zero => intro _ x hx; omega
  | succ k ih =>
    intro h x hx
    have h' : (allBelow p k && p k) = true := h
    rw [Bool.and_eq_true] at h'
    rcases Nat.lt_succ_iff_lt_or_eq.mp hx with h1 | h1
    · exact ih h'.1 x h1
    · rw [h1]; exact h'.2

/-- C1 (amended): for every normalized coordinate pair `(x, y)` with
`0 ≤ x, y ≤ 1000` and the `1440 × 900` viewport this repository's
`screen_size()` reports, denormalization yields the truncation of the
binary64 evaluation of `(x / 1000) * dim`, independently per axis.  On the
height axis this always equals `⌊y * 900 / 1000⌋`; on the width axis it
equals `⌊x * 1440 / 1000⌋` except at `x ∈ {175, 350, 575, 700}`, where the
double rounding lands just below the exact integer and the result is
`⌊x * 1440 / 1000⌋ - 1` — so it is neither `round` nor the exact floor. -/
theorem C1_denormalize_binary64 (x y : ℕ) (hx : x < 1001) (hy : y < 1001) :
    denormalize (x : ℤ) 1440 =
      (if x ∈ ([175, 350, 575, 700] : List ℕ) then ((x * 1440 / 1000 : ℕ) : ℤ) - 1
       else ((x * 1440 / 1000 : ℕ) : ℤ))
    ∧ denormalize (y : ℤ) 900 = ((y * 900 / 1000 : ℕ) : ℤ) := by
  constructor
  · by_cases hmem : x ∈ ([175, 350, 575, 700] : List ℕ)
    · rw [if_pos hmem]
      simp only [List.mem_cons, List.not_mem_nil, or_false] at hmem
      rcases hmem with h | h | h | h <;> (rw [h]; decide)
    · rw [if_neg hmem]
      have hall : allBelow
          (fun n => pyDenormNat n 1440 ==
            (if n ∈ ([175, 350, 575, 700] : List ℕ) then n * 1440 / 1000 - 1
             else n * 1440 / 1000)) 1001 = true := by rfl
      have hx1 := allBelow_spec _ 1001 hall x hx
      simp only [if_neg hmem] at hx1
      rw [denormalize_natCast, eq_of_beq hx1]
  · have hall : allBelow (fun n => pyDenormNat n 900 == n * 900 / 1000) 1001 = true := by rfl
    have hy1 := allBelow_spec _ 1001 hall y hy
    rw [denormalize_natCast, eq_of_beq hy1]

/-- C1 counterexample: at normalized `x = 999` on the reference viewport
width `W = 1440`, the code produces `1438` while `round(999*1440/1000)` is
`1439`, so denormalization is not rounding. -/
theorem C1_counterexample :
    denormalize 999 1440 = 1438 ∧ round ((999 * 1440 : ℚ) / 1000) = 1439 := by
  constructor
  · rfl
  · rw [round_eq]; norm_num

/-- C1 witness: the amended theorem applied at `x = 175` (a width-axis
deviation point, giving `251 = 252 - 1`) and `y = 450` (giving `405`). -/
theorem C1_witness :
    (175 : ℕ) < 1001 ∧ (450 : ℕ) < 1001
    ∧ denormalize ((175 : ℕ) : ℤ) 1440 =
        (if (175 : ℕ) ∈ ([175, 350, 575, 700] : List ℕ)
         then ((175 * 1440 / 1000 : ℕ) : ℤ) - 1 else ((175 * 1440 / 1000 : ℕ) : ℤ))
    ∧ denormalize ((450 : ℕ) : ℤ) 900 = ((450 * 900 / 1000 : ℕ) : ℤ) :=
  ⟨by norm_num, by norm_num,
   (C1_denormalize_binary64 175 450 (by norm_num) (by norm_num)).1,
   (C1_denormalize_binary64 175 450 (by norm_num) (by norm_num)).2⟩

/-- C2 counterexample: a syntactically valid object whose `action` kind is
unknown and which carries an extra unrecognized field is returned as a
parsed action, not rejected as a parse failure, contradicting the claim. -/
theorem C2_counterexample :
    parseResponse (some (.obj [("action", .str "unknown_kind"), ("extra", .num 5)]))
      = .ok (some (.obj [("action", .str "unknown_kind"), ("extra", .num 5)])) := rfl

/-- C2 (amended): the validator signals a parse failure exactly when the
text is empty/unparseable or the parsed object lacks the `action` key; an
object with an `action` key is returned unchanged, so unknown kinds, missing
or mistyped companion fields and extra fields are not rejected, and
malformed input is never coerced into a default action (every successful
parse returns the input value itself). -/
theorem C2_parse_characterization (r : Option Json) :
    parseResponse none = Except.ok none
    ∧ (∀ fields : List (String × Json),
        parseResponse (some (Json.obj fields)) =
          if fields.any (fun kv => kv.1 == "action") then Except.ok (some (Json.obj fields))
          else Except.ok none)
    ∧ (parseResponse r = Except.ok none
        ∨ (∃ a, r = some a ∧ parseResponse r = Except.ok (some a))
        ∨ (∃ e, parseResponse r = Except.error e)) := by
  refine ⟨rfl, fun fields => rfl, ?_⟩
  match r with
  | none => exact .inl rfl
  | some (.obj fields) =>
    by_cases h : fields.any (fun kv => kv.1 == "action")
    · exact .inr (.inl ⟨.obj fields, rfl, by simp only [parseResponse]; rw [if_pos h]⟩)
    · exact .inl (by simp only [parseResponse]; rw [if_neg h])
  | some (.arr elems) =>
    by_cases h : elems.any (fun e => match e with | .str s => s == "action" | _ => false)
    · exact .inr (.inl ⟨.arr elems, rfl, by simp only [parseResponse]; rw [if_pos h]⟩)
    · exact .inl (by simp only [parseResponse]; rw [if_neg h])
  | some (.str s) =>
    by_cases h : charsContain "action".toList s.toList
    · exact .inr (.inl ⟨.str s, rfl, by simp only [parseResponse]; rw [if_pos h]⟩)
    · exact .inl (by simp only [parseResponse]; rw [if_neg h])
  | some .null => exact .inr (.inr ⟨_, rfl⟩)
  | some (.bool b) => exact .inr (.inr ⟨_, rfl⟩)
  | some (.num n) => exact .inr (.inr ⟨_, rfl⟩)

/-- C8: scroll denormalization is odd in the pixel count: for every nonzero
`p` and every viewport height, `denormScroll (-p) = -denormScroll p`; only
the magnitude is scaled and the sign is preserved. -/
theorem C8_scroll_sign (p : Int) (H : Nat) (hp : p ≠ 0) :
    denormScroll (-p) H = - denormScroll p H := by
  unfold denormScroll
  simp only [Int.natAbs_neg]
  rcases lt_trichotomy p 0 with h | h | h
  · rw [if_pos h, if_neg (by omega : ¬ -p < 0), neg_neg]
  · exact absurd h hp
  · rw [if_neg (by omega : ¬ p < 0), if_pos (by omega : -p < 0)]

/-- C8 witness: the sign law applied at `p = -300`, `H = 900`. -/
theorem C8_scroll_sign_witness :
    (-300 : Int) ≠ 0 ∧ denormScroll (-(-300)) 900 = - denormScroll (-300) 900 :=
  ⟨by decide, C8_scroll_sign (-300) 900 (by decide)⟩

lemma pushHistory_foldl (w : Nat) (es : List HistoryEntry) :
    ∀ h : List HistoryEntry, h.length ≤ w →
      List.foldl (pushHistory w) h es = (h ++ es).drop (h.length + es.length - w) := by
  induction es with
  | nil =>
    intro h hh
    simp only [List.foldl_nil, List.append_nil, List.length_nil, Nat.add_zero]
    rw [Nat.sub_eq_zero_of_le hh, List.drop_zero]
  | cons e es ih =>
    intro h hh
    have hlen1 : (h ++ [e]).length = h.length + 1 := by
      simp only [List.length_append, List.length_cons, List.length_nil]
    simp only [List.foldl_cons, List.length_cons]
    by_cases hlen : w < (h ++ [e]).length
    · have hw : h.length = w := by omega
      have hp : pushHistory w h e = (h ++ [e]).tail := by
        simp only [pushHistory, if_pos hlen]
      have htl : (h ++ [e]).tail.length ≤ w := by
        rw [List.length_tail, hlen1]; omega
      rw [hp, ih _ htl]
      have h1le : 1 ≤ (h ++ [e]).length := by omega
      rw [← List.drop_one, ← List.drop_append_of_le_length h1le, List.drop_drop,
        List.append_assoc, List.singleton_append]
      congr 1
      rw [List.length_drop, hlen1]
      omega
    · have hp : pushHistory w h e = h ++ [e] := by
        simp only [pushHistory, if_neg hlen]
      have hle : (h ++ [e]).length ≤ w := by omega
      rw [hp, ih _ hle, List.append_assoc, List.singleton_append]
      congr 1
      rw [hlen1]
      omega

/-- C6: the history is a FIFO sliding window: after any sequence of turn
appends starting from the empty history, the retained history is exactly the
`context_window` most recent entries in chronological insertion order (the
oldest entries are dropped), and its length never exceeds `context_window`. -/
theorem C6_sliding_window (w : Nat) (es : List HistoryEntry) :
    List.foldl (pushHistory w) [] es = es.drop (es.length - w)
    ∧ (List.foldl (pushHistory w) [] es).length ≤ w := by
  have h := pushHistory_foldl w es [] (by simp)
  simp only [List.nil_append, List.length_nil, Nat.zero_add] at h
  refine ⟨h, ?_⟩
  rw [h]
  simp only [List.length_drop]
  omega

lemma any_key_of_lookup {β : Type} (k : String) (v : β) :
    ∀ l : List (String × β), List.lookup k l = some v → l.any (fun kv => kv.1 == k) = true := by
  intro l h
  induction l with
  | nil => simp [List.lookup] at h
  | cons kv t ih =>
    obtain ⟨k', v'⟩ := kv
    rw [List.lookup_cons] at h
    by_cases hk : k == k'
    · have : k' = k := (eq_of_beq hk).symm
      simp [List.any_cons, this]
    · rw [Bool.not_eq_true] at hk
      rw [hk] at h
      simp only [List.any_cons, Bool.or_eq_true]
      exact Or.inr (ih h)

/-- C4: whenever the loop is still running (any remaining budget, any
history and failure count) and the model replies with a valid `terminate`
action with status `success`, the loop ends immediately with a
success-status result, and the only external call of that turn is the
inference call — nothing further is dispatched to the environment. -/
theorem C4_terminate_success (cfg : Config) (fuel : Nat) (state : EnvState) (ls : LoopState)
    (hstep : ls.action_count < cfg.max_steps)
    (hresp : cfg.responses ls.ollama_calls =
      some (.obj [("action", .str "terminate"), ("status", .str "success")])) :
    runWithFuel cfg (fuel + 1) state ls =
      (makeResult ls.action_count (.str "success") state.url
        (.str (cfg.thinking ls.ollama_calls)),
       [.ollamaChat]) := by
  have hstep_eq : runOneStep cfg ls state =
      (.done (.str "success") (.str (cfg.thinking ls.ollama_calls)),
       { ls with ollama_calls := ls.ollama_calls + 1 }, [.ollamaChat]) := by
    simp only [runOneStep, hresp]
    rfl
  simp only [runWithFuel]
  rw [if_pos hstep, hstep_eq]

/-- C4 witness: the theorem applied to a stub model whose first reply is
`terminate`/`success`, with budget 5. -/
theorem C4_witness :
    initialLoopState.action_count < terminateSuccessCfg.max_steps
    ∧ runWithFuel terminateSuccessCfg 1 ⟨0, "u"⟩ initialLoopState =
        (makeResult 0 (.str "success") "u" (.str ""), [.ollamaChat]) :=
  ⟨by decide, C4_terminate_success terminateSuccessCfg 0 ⟨0, "u"⟩ initialLoopState (by decide) rfl⟩

/-- C10: a parsed object whose `action` field is `answer` ends the loop
immediately with a success-status result whose reasoning is the action's
`text` field (the empty string when absent); the step leaves the action
counter and the history unchanged and makes no environment call — the
turn's only external call is the inference call. -/
theorem C10_answer (cfg : Config) (fuel : Nat) (state : EnvState) (ls : LoopState)
    (fields : List (String × Json))
    (hstep : ls.action_count < cfg.max_steps)
    (hresp : cfg.responses ls.ollama_calls = some (.obj fields))
    (hact : List.lookup "action" fields = some (.str "answer")) :
    runOneStep cfg ls state =
      (.done (.str "success") ((List.lookup "text" fields).getD (.str "")),
       { ls with ollama_calls := ls.ollama_calls + 1 }, [.ollamaChat])
    ∧ runWithFuel cfg (fuel + 1) state ls =
      (makeResult ls.action_count (.str "success") state.url
        ((List.lookup "text" fields).getD (.str "")),
       [.ollamaChat]) := by
  have hany : fields.any (fun kv => kv.1 == "action") = true := by
    have := any_key_of_lookup "action" (Json.str "answer") fields hact
    simpa using this
  have hstep_eq : runOneStep cfg ls state =
      (.done (.str "success") ((List.lookup "text" fields).getD (.str "")),
       { ls with ollama_calls := ls.ollama_calls + 1 }, [.ollamaChat]) := by
    simp only [runOneStep, hresp, parseResponse, hany, if_true, hact]
    rw [if_neg (by decide : ¬ ("answer" = "terminate"))]
  refine ⟨hstep_eq, ?_⟩
  simp only [runWithFuel]
  rw [if_pos hstep, hstep_eq]

/-- C10 witness: the theorem applied to a stub model answering
`{action: answer, text: 42}` on the first turn. -/
theorem C10_witness :
    initialLoopState.action_count < answerCfg.max_steps
    ∧ runWithFuel answerCfg 1 ⟨0, "u"⟩ initialLoopState =
        (makeResult 0 (.str "success") "u" (.str "42"), [.ollamaChat]) :=
  ⟨by decide,
   (C10_answer answerCfg 0 ⟨0, "u"⟩ initialLoopState
      [("action", .str "answer"), ("text", .str "42")] (by decide) rfl rfl).2⟩

lemma parse_fail_step (cfg : Config) (ls : LoopState) (state : EnvState)
    (hresp : cfg.responses ls.ollama_calls = none) :
    runOneStep cfg ls state =
      (.raised "Failed to parse action",
       { ls with ollama_calls := ls.ollama_calls + 1 }, [.ollamaChat]) := by
  simp only [runOneStep, hresp]
  rfl

lemma runWithFuel_retry (cfg : Config) (fuel : Nat) (state : EnvState) (ls : LoopState)
    (hstep : ls.action_count < cfg.max_steps)
    (hresp : cfg.responses ls.ollama_calls = none)
    (hf : ls.consecutive_failures + 1 < 3) :
    runWithFuel cfg (fuel + 1) state ls =
      ((runWithFuel cfg fuel (cfg.envStates ls.env_calls)
          ⟨ls.history, ls.action_count, ls.consecutive_failures + 1,
           ls.ollama_calls + 1, ls.env_calls + 1⟩).1,
       .ollamaChat :: .currentState ::
         (runWithFuel cfg fuel (cfg.envStates ls.env_calls)
            ⟨ls.history, ls.action_count, ls.consecutive_failures + 1,
             ls.ollama_calls + 1, ls.env_calls + 1⟩).2) := by
  simp only [runWithFuel]
  rw [if_pos hstep, parse_fail_step cfg ls state hresp]
  simp only []
  rw [if_neg (by omega : ¬ ls.consecutive_failures + 1 ≥ 3)]
  rfl

lemma runWithFuel_fail_final (cfg : Config) (fuel : Nat) (state : EnvState) (ls : LoopState)
    (hstep : ls.action_count < cfg.max_steps)
    (hresp : cfg.responses ls.ollama_calls = none)
    (hf : 3 ≤ ls.consecutive_failures + 1) :
    runWithFuel cfg (fuel + 1) state ls =
      (makeResult ls.action_count (.str "failure") state.url (.str "Failed to parse action"),
       [.ollamaChat]) := by
  simp only [runWithFuel]
  rw [if_pos hstep, parse_fail_step cfg ls state hresp]
  simp only []
  rw [if_pos (show ls.consecutive_failures + 1 ≥ 3 from hf)]

/-- C3: when the inference client yields unparseable text on the first
three turns, the loop terminates with a failure-status result, the action
counter is never incremented, the state is re-queried (`current_state`)
before each of the two retries, and the full external trace contains no
action dispatch — it is exactly the initial snapshot plus three
inference/re-query rounds. -/
theorem C3_three_parse_failures (cfg : Config)
    (hms : 1 ≤ cfg.max_steps)
    (h0 : cfg.responses 0 = none) (h1 : cfg.responses 1 = none)
    (h2 : cfg.responses 2 = none) :
    run cfg =
      (makeResult 0 (.str "failure") (cfg.envStates 2).url (.str "Failed to parse action"),
       [.currentState, .ollamaChat, .currentState, .ollamaChat, .currentState, .ollamaChat]) := by
  have e3 : runWithFuel cfg (4 * cfg.max_steps + 2) (cfg.envStates 2) ⟨[], 0, 2, 2, 3⟩ =
      (makeResult 0 (.str "failure") (cfg.envStates 2).url (.str "Failed to parse action"),
       [.ollamaChat]) :=
    runWithFuel_fail_final cfg (4 * cfg.max_steps + 1) (cfg.envStates 2) ⟨[], 0, 2, 2, 3⟩
      (show (0:ℕ) < cfg.max_steps by omega) h2 (show (3:ℕ) ≤ 2 + 1 by omega)
  have e2 : runWithFuel cfg (4 * cfg.max_steps + 3) (cfg.envStates 1) ⟨[], 0, 1, 1, 2⟩ =
      ((runWithFuel cfg (4 * cfg.max_steps + 2) (cfg.envStates 2) ⟨[], 0, 2, 2, 3⟩).1,
       .ollamaChat :: .currentState ::
         (runWithFuel cfg (4 * cfg.max_steps + 2) (cfg.envStates 2) ⟨[], 0, 2, 2, 3⟩).2) :=
    runWithFuel_retry cfg (4 * cfg.max_steps + 2) (cfg.envStates 1) ⟨[], 0, 1, 1, 2⟩
      (show (0:ℕ) < cfg.max_steps by omega) h1 (show (1:ℕ) + 1 < 3 by omega)
  have e1 : runWithFuel cfg (4 * cfg.max_steps + 4) (cfg.envStates 0) initialLoopState =
      ((runWithFuel cfg (4 * cfg.max_steps + 3) (cfg.envStates 1) ⟨[], 0, 1, 1, 2⟩).1,
       .ollamaChat :: .currentState ::
         (runWithFuel cfg (4 * cfg.max_steps + 3) (cfg.envStates 1) ⟨[], 0, 1, 1, 2⟩).2) :=
    runWithFuel_retry cfg (4 * cfg.max_steps + 3) (cfg.envStates 0) initialLoopState
      (show (0:ℕ) < cfg.max_steps by omega) h0 (show (0:ℕ) + 1 < 3 by omega)
  simp only [run]
  rw [e1, e2, e3]

/-- C3 witness: the theorem applied to a stubbed inference client that
always returns unparseable text. -/
theorem C3_witness :
    1 ≤ allUnparseableCfg.max_steps
    ∧ allUnparseableCfg.responses 0 = none
    ∧ allUnparseableCfg.responses 1 = none
    ∧ allUnparseableCfg.responses 2 = none
    ∧ run allUnparseableCfg =
        (makeResult 0 (.str "failure") "u" (.str "Failed to parse action"),
         [.currentState, .ollamaChat, .currentState, .ollamaChat, .currentState, .ollamaChat]) :=
  ⟨by decide, rfl, rfl, rfl,
   C3_three_parse_failures allUnparseableCfg (by decide) rfl rfl rfl⟩

/-- C7: with `max_steps = 0` the loop terminates immediately with a
failure-status result whose `action_count` is 0 and whose reasoning is the
max-steps message; the only external call is the initial `current_state()`
snapshot — the inference client is never invoked. -/
theorem C7_zero_budget (cfg : Config) (h : cfg.max_steps = 0) :
    run cfg =
      (makeResult 0 (.str "failure") (cfg.envStates 0).url (.str "Max steps reached"),
       [.currentState]) := by
  simp only [run]
  rw [h]
  norm_num
  simp only [runWithFuel]
  rw [h]
  rw [if_neg (by simp [initialLoopState] : ¬ initialLoopState.action_count < 0)]
  exact ⟨rfl, rfl⟩

/-- C7 witness: the theorem applied to a configuration with a zero step
budget. -/
theorem C7_witness :
    zeroStepsCfg.max_steps = 0
    ∧ run zeroStepsCfg =
        (makeResult 0 (.str "failure") "u" (.str "Max steps reached"), [.currentState]) :=
  ⟨rfl, C7_zero_budget zeroStepsCfg rfl⟩

/-- C5 (amended): for every parsed action whose kind is outside the known
vocabulary (and is not `terminate` or `answer`) and whose coordinate prelude
does not raise (the `coordinate` field is absent, defaulting to `[0, 0]`, or
is a pair of integers, as every schema-conformant reply supplies), the turn
re-queries the state (`current_state`) with no environment action dispatched
and no crash, and the failure counter is untouched by the step (the loop
then resets it); however — contrary to the claim — the action counter
increments and a history entry is appended, exactly as for a dispatched
action.  When instead the coordinate prelude raises (for example
`coordinate` is the string `"ab"`, so `coordinate[0] / 1000` is a
`TypeError`), the turn is a counted failure like any other exception, also
contradicting the claim's `no crash, failure counter not incremented`. -/
theorem C5_unknown_kind :
    (∀ (cfg : Config) (ls : LoopState) (state : EnvState) (k : String)
        (fields : List (String × Json)),
        k ∉ knownActionKinds →
        cfg.responses ls.ollama_calls = some (.obj fields) →
        List.lookup "action" fields = some (.str k) →
        (List.lookup "coordinate" fields = none
          ∨ ∃ a b : Int, List.lookup "coordinate" fields = some (.arr [.num a, .num b])) →
        runOneStep cfg ls state =
          (.next (cfg.envStates ls.env_calls),
           ⟨pushHistory cfg.context_window ls.history
              ⟨state.screenshot, .obj fields, cfg.thinking ls.ollama_calls⟩,
            ls.action_count + 1, ls.consecutive_failures,
            ls.ollama_calls + 1, ls.env_calls + 1⟩,
           [.ollamaChat, .screenSize, .screenSize, .currentState]))
    ∧ (∀ (cfg : Config) (ls : LoopState) (state : EnvState),
        cfg.responses ls.ollama_calls =
          some (.obj [("action", .str "foo"), ("coordinate", .str "ab")]) →
        runOneStep cfg ls state =
          (.raised "unsupported operand type",
           { ls with ollama_calls := ls.ollama_calls + 1 }, [.ollamaChat])) := by
  constructor
  · intro cfg ls state k fields hk hresp hact hcoord
    simp only [knownActionKinds, List.mem_cons, List.mem_singleton, not_or] at hk
    obtain ⟨n1, n2, n3, n4, n5, n6, n7, n8, n9, n10, n11, n12, n13, -⟩ := hk
    have hany : fields.any (fun kv => kv.1 == "action") = true :=
      any_key_of_lookup "action" (Json.str k) fields hact
    have hexec : executeAction cfg fields ls.env_calls =
        (.ok (cfg.envStates ls.env_calls), [.screenSize, .screenSize, .currentState],
         ls.env_calls + 1) := by
      rcases hcoord with hc | ⟨a, b, hc⟩ <;>
      · simp only [executeAction, hc, Option.getD, jsonTruthy, jsonIndex, jsonLen, asNumber,
          hact, Bool.not_eq_true, List.isEmpty_cons]
        simp only [if_neg n1, if_neg n2, if_neg n3, if_neg n4, if_neg n5, if_neg n6, if_neg n7,
          if_neg n8, if_neg n9, if_neg n10, if_neg n11]
        rfl
    simp only [runOneStep, hresp, parseResponse, hany, if_true, hact]
    simp only [if_neg n12, if_neg n13, hexec]
  · intro cfg ls state hresp
    simp only [runOneStep, hresp, parseResponse]
    rfl

/-- C5 counterexample: a run whose single turn is the unknown action kind
`foo` dispatches nothing to the environment, yet finishes with
`action_count = 1` — the action counter did increment on the unknown-kind
turn, contradicting the claim. -/
theorem C5_counterexample :
    (run unknownActionCfg).1.action_count = 1
    ∧ (run unknownActionCfg).2.filter ExtCall.isDispatch = [] :=
  ⟨rfl, rfl⟩

/-- C5 witness: the no-dispatch part of the amended theorem applied at the
unknown kind `foo` with no `coordinate` field. -/
theorem C5_unknown_kind_witness :
    "foo" ∉ knownActionKinds
    ∧ List.lookup "action" [("action", Json.str "foo")] = some (.str "foo")
    ∧ (List.lookup "coordinate" [("action", Json.str "foo")] = none
        ∨ ∃ a b : Int,
            List.lookup "coordinate" [("action", Json.str "foo")] = some (.arr [.num a, .num b]))
    ∧ runOneStep unknownActionCfg initialLoopState ⟨0, "u"⟩ =
        (.next (unknownActionCfg.envStates 1),
         ⟨pushHistory unknownActionCfg.context_window []
            ⟨0, .obj [("action", .str "foo")], ""⟩,
          1, 0, 1, 2⟩,
         [.ollamaChat, .screenSize, .screenSize, .currentState]) :=
  ⟨by decide, rfl, Or.inl rfl,
   C5_unknown_kind.1 unknownActionCfg initialLoopState ⟨0, "u"⟩ "foo"
     [("action", Json.str "foo")] (by decide) rfl rfl (Or.inl rfl)⟩

/-- C9: the spec's example scenario — a stub model emitting a click at
normalized (500,500), then typing `hello`, then `terminate`/`success`, on a
1440×900 viewport — dispatches exactly `click_at(720, 450)` then
`type_text("hello")` and ends with a success result and `action_count = 2`. -/
theorem C9_example_scenario :
    (run scenarioCfg).1.status = .str "success"
    ∧ (run scenarioCfg).1.action_count = 2
    ∧ (run scenarioCfg).2.filter ExtCall.isDispatch =
        [.clickAt 720 450, .typeText (.str "hello")] :=
  ⟨rfl, rfl, rfl⟩

end Qwen3CU
